import Mathlib

/-!
Shallow embedding of the power-management subsystem of `pkg/node/power.go`
(the maintained orchestrator; `pkg/node/events.go` is its superseded draft).

External effects (ledger reads/writes, the HTTP client, netlink, zinit,
ether-wake) are modelled by explicit environment records holding the outcome
of each external call, and by an `Effect` trace listing the side effects a
function emits, in order.  Machine integers are `Nat` with an explicit
`% 2 ^ 64` where Go wrap-around matters.
-/

/-- the constant `downTarget = "down"` from power.go. -/
def downTarget : String := "down"

/-- `PowerServerPort = 8039`. -/
def PowerServerPort : Nat := 8039

/-- Target/State flags as read from a ledger node record (`node.Power().Target`
and `node.Power().State`): two boolean axes. -/
structure PowerFlags where
  IsUp : Bool
  IsDown : Bool
deriving DecidableEq

/-- `node.Power()`: target, state and the last-uptime timestamp (uint64,
modelled as `Nat`). -/
structure NodePower where
  Target : PowerFlags
  State : PowerFlags
  LastUpTime : Nat
deriving DecidableEq

/-- One entry of `node.Interfaces`: name, MAC and the IP list. -/
structure SubInterface where
  Name : String
  Mac : String
  IPs : List String
deriving DecidableEq

/-- A ledger node record as used by power.go: id, farm, interfaces and power. -/
structure SubNode where
  ID : Nat
  FarmID : Nat
  Interfaces : List SubInterface
  Power : NodePower
deriving DecidableEq

/-- Payload of a `SetNodePowerState` ledger transaction
(`substrate.PowerState{IsUp: ..., IsDown: ..., Leader: ...}`; unset Go fields
are the zero values `false` / `0`). -/
structure PowerState where
  IsUp : Bool
  IsDown : Bool
  Leader : Nat
deriving DecidableEq

/-- The wire body of a peer power request (struct `powerRequest` in power.go). -/
structure PowerRequestBody where
  Leader : Nat
  Node : Nat
  Target : String
deriving DecidableEq

/-- The side effects power.go can emit, in program order:
a `SetNodePowerState` ledger transaction, a local shutdown, an `ether-wake`
Wake-on-LAN packet to a MAC, or a signed POST /power request to a peer IP. -/
inductive Effect where
  | setNodePowerState (st : PowerState)
  | shutdown
  | wake (mac : String)
  | sendPowerRequest (ip : String) (req : PowerRequestBody)
deriving DecidableEq

/-- The fields of `PowerServer` the embedded functions read. -/
structure PowerServer where
  farm : Nat
  node : Nat
deriving DecidableEq

/-- `Direct`: the control-plane interface index fixed at construction. -/
structure Direct where
  idx : Int
deriving DecidableEq

/-- A netlink route as inspected by `IsDirect`: gateway (nil modelled as
`none`) and outbound link index. -/
structure Route where
  Gw : Option (List Nat)
  LinkIndex : Int
deriving DecidableEq

/-- Outcomes of the kernel interactions `IsDirect` performs: `net.ParseIP`
(`none` for an unparseable string) and `netlink.RouteGet` (errors only when
the network is unreachable). -/
structure RouteEnv where
  parseIP : String → Option (List Nat)
  routeGet : List Nat → Except Unit (List Route)

/-- `Direct.IsDirect` from power.go: error iff the string does not parse;
a failed route lookup is "not direct" with a nil error; otherwise direct iff
some returned route has no gateway and the fixed link index. -/
def Direct.IsDirect (d : Direct) (env : RouteEnv) (ip : String) : Except Unit Bool :=
  match env.parseIP ip with
  | none => .error ()
  | some ipT =>
    match env.routeGet ipT with
    | .error _ => .ok false
    | .ok routes => .ok (routes.any fun r => decide (r.Gw = none ∧ r.LinkIndex = d.idx))

/-- `needNudge(id, ts)` from power.go with the current unix time made an
explicit argument: `next := ts + (24+uint64(id)%24)*1200` in uint64
arithmetic, then `now >= next`. -/
def needNudge (id ts now : Nat) : Bool :=
  let next := (ts + (24 + id % 24) * 1200) % 2 ^ 64
  decide (next ≤ now)

/-- First interface of the record named "zos", if any (the lookup loops in
`powerUp` and `powerDown` both take the first match and break). -/
def zosInterface (node : SubNode) : Option SubInterface :=
  node.Interfaces.find? fun inf => inf.Name == "zos"

/-- `powerUp`: find the MAC of the "zos" interface; empty means an error and
no packet; otherwise one `ether-wake` packet whose delivery outcome is
`wolOk`. -/
def powerUp (node : SubNode) (wolOk : Bool) : Except Unit Unit × List Effect :=
  let mac := match zosInterface node with
    | some inf => inf.Mac
    | none => ""
  if mac == "" then (.error (), [])
  else ((if wolOk then .ok () else .error ()), [Effect.wake mac])

/-- `powerDown`: collect the IPs of the "zos" interface, build the request
body `{Leader: p.node, Node: node.ID, Target: downTarget}`, and for each IP
send the signed request only when `IsDirect` confirms it is local; probe
errors and request errors are logged and skipped; the function itself always
returns nil. -/
def powerDown (p : PowerServer) (d : Direct) (env : RouteEnv) (node : SubNode) :
    Except Unit Unit × List Effect :=
  let ips := match zosInterface node with
    | some inf => inf.IPs
    | none => []
  let req : PowerRequestBody := { Leader := p.node, Node := node.ID, Target := downTarget }
  (.ok (), ips.filterMap fun ip =>
    match d.IsDirect env ip with
    | .error _ => none
    | .ok false => none
    | .ok true => some (Effect.sendPowerRequest ip req))

/-- Environment of one `syncNode` call: the `sub.GetNode(id)` outcome and the
current unix time consumed by `needNudge`. -/
structure SyncNodeEnv where
  getNode : Except Unit SubNode
  now : Nat

/-- `syncNode` from power.go: fetch the record; if target is up or state is
down, wake the node exactly when `needNudge` fires, else do nothing; otherwise
(target down, state up) attempt the peer power-down. -/
def syncNode (p : PowerServer) (d : Direct) (renv : RouteEnv) (wolOk : Bool)
    (env : SyncNodeEnv) (id : Nat) : Except Unit Unit × List Effect :=
  match env.getNode with
  | .error e => (.error e, [])
  | .ok node =>
    if node.Power.Target.IsUp || node.Power.State.IsDown then
      if needNudge id node.Power.LastUpTime env.now then powerUp node wolOk
      else (.ok (), [])
    else powerDown p d renv node

/-- Environment of one `syncSelf` call: the `p.getNode(p.node)` outcome, the
`p.sub.Substrate()` connection outcome, the `SetNodePowerState` transaction
outcome, and the local `shutdown()` outcome. -/
structure SelfSyncEnv where
  getNode : Except Unit SubNode
  subOk : Bool
  setStateOk : Bool
  shutdownOk : Bool

/-- `syncSelf` from power.go: fetch the own record; if the target is up, issue
a `SetNodePowerState{IsUp: true}` transaction; else if the state is down, run
the local shutdown; otherwise do nothing. -/
def syncSelf (env : SelfSyncEnv) : Except Unit Unit × List Effect :=
  match env.getNode with
  | .error e => (.error e, [])
  | .ok node =>
    let power := node.Power
    if power.Target.IsUp then
      if env.subOk then
        ((if env.setStateOk then .ok () else .error ()),
          [Effect.setNodePowerState { IsUp := true, IsDown := false, Leader := 0 }])
      else (.error (), [])
    else if power.State.IsDown then
      ((if env.shutdownOk then .ok () else .error ()), [Effect.shutdown])
    else (.ok (), [])

/-- `recv` collapsed to its return value: `some ()` (the wrapped
`errConnectionError`) when the event subscription cannot be established, and
`nil` after a successfully established stream has been drained — per-event
errors are only logged inside the range loop. -/
def recv (connectOk : Bool) : Option Unit :=
  if connectOk then none else some ()

/-- What the `events` retry loop does after one `recv` call returns. -/
inductive LoopNext where
  | exit
  | retryAfter (seconds : Nat)
deriving DecidableEq

/-- One iteration of the retry loop in `events`: a nil `recv` result returns
from the loop; an error selects between context cancellation (exit) and a
10-second timer (retry). -/
def eventsIter (recvErr : Option Unit) (cancelled : Bool) : LoopNext :=
  match recvErr with
  | none => .exit
  | some _ => if cancelled then .exit else .retryAfter 10

/-- A power-change event from the event feed: farm, node and target. -/
structure PowerChangeEvent where
  FarmID : Nat
  NodeID : Nat
  Target : PowerFlags
deriving DecidableEq

/-- `event` from power.go: ignore foreign farms before anything else; fetch
the record of the event's node; ignore events about this node itself; then
dispatch on the event target. -/
def event (p : PowerServer) (d : Direct) (renv : RouteEnv) (wolOk : Bool)
    (getNode : Except Unit SubNode) (ev : PowerChangeEvent) :
    Except Unit Unit × List Effect :=
  if ev.FarmID ≠ p.farm then (.ok (), [])
  else
    match getNode with
    | .error e => (.error e, [])
    | .ok node =>
      if ev.NodeID = p.node then (.ok (), [])
      else if ev.Target.IsDown then powerDown p d renv node
      else if ev.Target.IsUp then powerUp node wolOk
      else (.ok (), [])

/-- Outcomes of the local construction steps and the transport step of one
`powerRequest` call: JSON encoding, URL building, `http.NewRequest`, request
signing, and whether `p.http.Do` returned a transport error. -/
structure HttpEnv where
  encodeOk : Bool
  buildUrlOk : Bool
  newRequestOk : Bool
  signOk : Bool
  doErr : Bool

/-- `powerRequest` from power.go, returning its error and whether a received
response body was closed: each local construction failure propagates; after a
signed request exists, the `Do` outcome is dropped and the result is nil, the
body being closed exactly when a response arrived. -/
def powerRequest (env : HttpEnv) (_ip : String) (_req : PowerRequestBody) :
    Option Unit × Bool :=
  if env.encodeOk = false then (some (), false)
  else if env.buildUrlOk = false then (some (), false)
  else if env.newRequestOk = false then (some (), false)
  else if env.signOk = false then (some (), false)
  else (none, !env.doErr)

/-- The handler responses power.go produces through the `mw` package. -/
inductive Resp where
  | forbidden
  | badRequest
  | unAuthorized
  | upstreamError
  | accepted
deriving DecidableEq

/-- Environment of one `power` handler call: the election oracle, the decoded
body, the authenticated twin id from the signature middleware, the substrate
connection, the leader-node lookup, the power-state transaction outcome and
the local shutdown outcome. -/
structure PowerHandlerEnv where
  isLeader : Bool
  decodeBody : Except Unit PowerRequestBody
  twinID : Nat
  subOk : Bool
  getLeader : Except Unit SubNode
  setStateOk : Bool
  shutdownOk : Bool

/-- The `power` HTTP handler from power.go, with its emitted actions: leaders
refuse outright; the body must decode; the authenticated twin must equal the
body's Leader; the target must be "down"; the leader's record must be on this
farm; then the down transaction is written and, if it succeeded, shutdown
runs and 202 is returned. -/
def power (p : PowerServer) (env : PowerHandlerEnv) : Resp × List Effect :=
  if env.isLeader then (.forbidden, [])
  else
    match env.decodeBody with
    | .error _ => (.badRequest, [])
    | .ok request =>
      let leader := env.twinID
      if leader ≠ request.Leader then (.unAuthorized, [])
      else if request.Target ≠ downTarget then (.badRequest, [])
      else if env.subOk = false then (.upstreamError, [])
      else
        match env.getLeader with
        | .error _ => (.upstreamError, [])
        | .ok leaderNode =>
          if leaderNode.FarmID ≠ p.farm then (.unAuthorized, [])
          else
            let tx := Effect.setNodePowerState
              { IsUp := false, IsDown := true, Leader := request.Leader }
            if env.setStateOk = false then (.upstreamError, [tx])
            else if env.shutdownOk = false then (.upstreamError, [tx, .shutdown])
            else (.accepted, [tx, .shutdown])

/-! Concrete values used by witnesses and counterexamples. -/

/-- A server on farm 7 with node id 1. -/
def pEx : PowerServer := { farm := 7, node := 1 }

/-- A probe bound to link index 7. -/
def dEx : Direct := { idx := 7 }

/-- A route environment where nothing parses and lookups fail. -/
def renvEx : RouteEnv := { parseIP := fun _ => none, routeGet := fun _ => .error () }

/-- A route environment where every string parses to one address whose single
route has no gateway and link index 7. -/
def renvDirect : RouteEnv :=
  { parseIP := fun _ => some [10, 0, 0, 5]
    routeGet := fun _ => .ok [{ Gw := none, LinkIndex := 7 }] }

/-- A self record whose target is up while its state is already up. -/
def upNode : SubNode :=
  { ID := 1, FarmID := 7, Interfaces := []
    Power := { Target := { IsUp := true, IsDown := false }
               State := { IsUp := true, IsDown := false }
               LastUpTime := 0 } }

/-- A neighbor record that is overdue for a nudge and carries a zos MAC. -/
def wakeNode : SubNode :=
  { ID := 9, FarmID := 7
    Interfaces := [{ Name := "zos", Mac := "aa:bb:cc:dd:ee:ff", IPs := ["10.0.0.5"] }]
    Power := { Target := { IsUp := true, IsDown := false }
               State := { IsUp := true, IsDown := false }
               LastUpTime := 0 } }

/-- A leader record on farm 7. -/
def leaderNodeEx : SubNode :=
  { ID := 2, FarmID := 7, Interfaces := [], Power :=
    { Target := { IsUp := true, IsDown := false }
      State := { IsUp := true, IsDown := false }, LastUpTime := 0 } }

/-- A leader record on a different farm (8). -/
def foreignLeaderEx : SubNode :=
  { ID := 2, FarmID := 8, Interfaces := [], Power :=
    { Target := { IsUp := true, IsDown := false }
      State := { IsUp := true, IsDown := false }, LastUpTime := 0 } }

/-- A request body asking for an up transition. -/
def upReqEx : PowerRequestBody := { Leader := 2, Node := 1, Target := "up" }

/-- A well-formed down request body. -/
def downReqEx : PowerRequestBody := { Leader := 2, Node := 1, Target := downTarget }

/-- Handler environment: not a leader, body decodes to `upReqEx`, but the
authenticated twin (1) differs from the body leader (2). -/
def cexEnv6 : PowerHandlerEnv :=
  { isLeader := false, decodeBody := .ok upReqEx, twinID := 1
    subOk := true, getLeader := .ok leaderNodeEx, setStateOk := true, shutdownOk := true }

/-- Handler environment for a fully validated down request from twin 2. -/
def okEnv3 : PowerHandlerEnv :=
  { isLeader := false, decodeBody := .ok downReqEx, twinID := 2
    subOk := true, getLeader := .ok leaderNodeEx, setStateOk := true, shutdownOk := true }

/-- A construction-successful HTTP environment whose transport also works. -/
def httpEnvEx : HttpEnv :=
  { encodeOk := true, buildUrlOk := true, newRequestOk := true, signOk := true, doErr := false }

/-! Helper lemmas shared by several claims. -/

/-- The effect trace of `syncSelf` is empty, a single up transaction,
or a single shutdown. -/
theorem syncSelf_effects (env : SelfSyncEnv) :
    (syncSelf env).2 = [] ∨
    (syncSelf env).2 = [Effect.setNodePowerState { IsUp := true, IsDown := false, Leader := 0 }] ∨
    (syncSelf env).2 = [Effect.shutdown] := by
  obtain ⟨g, sub, set, sh⟩ := env
  rcases g with e | node
  · left; rfl
  · by_cases hup : node.Power.Target.IsUp = true
    · cases sub <;> simp [syncSelf, hup]
    · by_cases hdown : node.Power.State.IsDown = true <;>
        simp [syncSelf, hup, hdown]

/-- Every effect `powerUp` emits is a Wake-on-LAN packet. -/
theorem powerUp_effects (node : SubNode) (wolOk : Bool) :
    ∀ a ∈ (powerUp node wolOk).2, ∃ mac, a = Effect.wake mac := by
  intro a ha
  unfold powerUp at ha
  rcases hz : zosInterface node with - | inf <;> rw [hz] at ha
  · simp at ha
  · by_cases hm : inf.Mac = ""
    · simp [hm] at ha
    · cases wolOk <;> simp [hm] at ha <;> exact ⟨_, ha⟩

/-- Every effect `powerDown` emits is a signed peer power-down request
carrying `{Leader: p.node, Node: node.ID, Target: downTarget}`. -/
theorem powerDown_effects (p : PowerServer) (d : Direct) (renv : RouteEnv) (node : SubNode) :
    ∀ a ∈ (powerDown p d renv node).2, ∃ ip,
      a = Effect.sendPowerRequest ip
        { Leader := p.node, Node := node.ID, Target := downTarget } := by
  intro a ha
  unfold powerDown at ha
  simp only [List.mem_filterMap] at ha
  obtain ⟨ip, -, hip⟩ := ha
  split at hip
  · simp at hip
  · simp at hip
  · simp only [Option.some.injEq] at hip
    exact ⟨ip, hip.symm⟩

/-- Claim C1 (amended): whenever the own record is fetched, its power target is up
and a ledger connection is obtained, `syncSelf` issues the single
`SetNodePowerState{IsUp: true}` transaction — regardless of the recorded
state — and for every environment no transaction with the down flag (nor any
transaction not setting up) is ever issued. -/
theorem syncSelf_sets_up_whenever_target_up (env : SelfSyncEnv) :
    (∀ node, env.getNode = Except.ok node → node.Power.Target.IsUp = true →
      env.subOk = true →
      (syncSelf env).2
        = [Effect.setNodePowerState { IsUp := true, IsDown := false, Leader := 0 }]) ∧
    (∀ st, Effect.setNodePowerState st ∈ (syncSelf env).2 →
      st.IsUp = true ∧ st.IsDown = false) := by
  constructor
  · intro node hg hup hsub
    simp [syncSelf, hg, hup, hsub]
  · intro st hst
    rcases syncSelf_effects env with h | h | h <;> rw [h] at hst <;> simp at hst
    rw [hst]
    exact ⟨rfl, rfl⟩

/-- Witness for C1: on the concrete record `upNode` with target up, the up
transaction is issued. -/
theorem syncSelf_sets_up_whenever_target_up_witness :
    (syncSelf { getNode := Except.ok upNode, subOk := true
                setStateOk := true, shutdownOk := true }).2
      = [Effect.setNodePowerState { IsUp := true, IsDown := false, Leader := 0 }] :=
  (syncSelf_sets_up_whenever_target_up _).1 upNode rfl rfl rfl

/-- Counterexample to C1 as stated: `upNode` already has state up
(`State.IsUp = true`, `State.IsDown = false`), yet `syncSelf` still issues the
"set state up" transaction, so the transaction is not conditional on the state
not being up. -/
theorem syncSelf_issues_up_tx_when_state_already_up :
    upNode.Power.Target.IsUp = true ∧
    upNode.Power.State.IsUp = true ∧
    upNode.Power.State.IsDown = false ∧
    (syncSelf { getNode := Except.ok upNode, subOk := true
                setStateOk := true, shutdownOk := true }).2
      = [Effect.setNodePowerState { IsUp := true, IsDown := false, Leader := 0 }] := by
  decide

/-- Claim C2 (amended): only a failure to establish the event subscription makes the
`events` loop retry after ten seconds (exiting instead when the context is
cancelled); when an established stream ends mid-flight `recv` returns nil and
the loop exits without any retry. -/
theorem events_retry_only_on_connect_failure (cancelled : Bool) :
    eventsIter (recv false) cancelled
      = (if cancelled then LoopNext.exit else LoopNext.retryAfter 10) ∧
    eventsIter (recv true) cancelled = LoopNext.exit := by
  cases cancelled <;> exact ⟨rfl, rfl⟩

/-- Counterexample to C2 as stated: with the context not cancelled, a
mid-flight termination of an established stream (`recv true` returning nil)
makes the loop exit, not retry after ten seconds. -/
theorem events_exit_on_midstream_end :
    eventsIter (recv true) false = LoopNext.exit ∧
    LoopNext.exit ≠ LoopNext.retryAfter 10 := by
  decide

/-- Claim C5: `needNudge` holds exactly when the current time is at or past
`LastUpTime + (24 + id mod 24) * 1200` seconds, provided that deadline does
not overflow the uint64 arithmetic it is computed in. -/
theorem needNudge_iff_deadline (id ts now : Nat)
    (h : ts + (24 + id % 24) * 1200 < 2 ^ 64) :
    needNudge id ts now = true ↔ ts + (24 + id % 24) * 1200 ≤ now := by
  simp only [needNudge, decide_eq_true_eq]
  omega

/-- Witness for C5: node id 3, last uptime 1000, deadline 1000 + 27 * 1200 =
33400; at time 33400 the nudge fires. -/
theorem needNudge_iff_deadline_witness :
    1000 + (24 + 3 % 24) * 1200 < 2 ^ 64 ∧
    (needNudge 3 1000 33400 = true ↔ 1000 + (24 + 3 % 24) * 1200 ≤ 33400) ∧
    needNudge 3 1000 33400 = true := by
  refine ⟨by norm_num, needNudge_iff_deadline 3 1000 33400 (by norm_num), by decide⟩

/-- Claim C4: on a fetched neighbor record, if the target is up or the state
is down then `syncNode` behaves as the Wake-on-LAN power-up exactly when
`needNudge` fires (all effects being wake packets) and does nothing
otherwise; if the target is down and the state is up it behaves as the peer
power-down attempt and all of its effects are peer power-down requests,
never a Wake-on-LAN. -/
theorem syncNode_dispatch (p : PowerServer) (d : Direct) (renv : RouteEnv)
    (wolOk : Bool) (env : SyncNodeEnv) (id : Nat) (node : SubNode)
    (hg : env.getNode = Except.ok node) :
    ((node.Power.Target.IsUp || node.Power.State.IsDown) = true →
      (needNudge id node.Power.LastUpTime env.now = true →
        syncNode p d renv wolOk env id = powerUp node wolOk ∧
        ∀ a ∈ (syncNode p d renv wolOk env id).2, ∃ mac, a = Effect.wake mac) ∧
      (needNudge id node.Power.LastUpTime env.now = false →
        (syncNode p d renv wolOk env id).2 = [])) ∧
    ((node.Power.Target.IsUp || node.Power.State.IsDown) = false →
      syncNode p d renv wolOk env id = powerDown p d renv node ∧
      ∀ a ∈ (syncNode p d renv wolOk env id).2, ∃ ip,
        a = Effect.sendPowerRequest ip
          { Leader := p.node, Node := node.ID, Target := downTarget }) := by
  have hsync : syncNode p d renv wolOk env id =
      (if node.Power.Target.IsUp || node.Power.State.IsDown then
        if needNudge id node.Power.LastUpTime env.now then powerUp node wolOk
        else (.ok (), [])
      else powerDown p d renv node) := by
    unfold syncNode
    rw [hg]
  constructor
  · intro hud
    constructor
    · intro hn
      have he : syncNode p d renv wolOk env id = powerUp node wolOk := by
        rw [hsync, hud, hn]
        simp
      exact ⟨he, by rw [he]; exact powerUp_effects node wolOk⟩
    · intro hn
      rw [hsync, hud, hn]
      simp
  · intro hud
    have he : syncNode p d renv wolOk env id = powerDown p d renv node := by
      rw [hsync, hud]
      simp
    exact ⟨he, by rw [he]; exact powerDown_effects p d renv node⟩

/-- Witness for C4: the overdue neighbor `wakeNode` (target up, deadline
39600 long past at time 100000) gets exactly one Wake-on-LAN packet to its
zos MAC. -/
theorem syncNode_dispatch_witness :
    syncNode pEx dEx renvEx true { getNode := Except.ok wakeNode, now := 100000 } 9
      = (Except.ok (), [Effect.wake "aa:bb:cc:dd:ee:ff"]) := by
  have h := ((syncNode_dispatch pEx dEx renvEx true
      { getNode := Except.ok wakeNode, now := 100000 } 9 wakeNode rfl).1
      (by decide)).1 (by decide)
  rw [h.1]
  rfl

/-- Claim C3: once a POST /power request is fully validated, the handler
first writes the down transaction recording the request leader, then runs the
local shutdown, then answers 202 Accepted; when the ledger write fails it
answers an upstream error and no shutdown is invoked. -/
theorem power_writes_ledger_before_shutdown (p : PowerServer)
    (env : PowerHandlerEnv) (request : PowerRequestBody) (leaderNode : SubNode)
    (h1 : env.isLeader = false) (h2 : env.decodeBody = Except.ok request)
    (h3 : env.twinID = request.Leader) (h4 : request.Target = downTarget)
    (h5 : env.subOk = true) (h6 : env.getLeader = Except.ok leaderNode)
    (h7 : leaderNode.FarmID = p.farm) :
    (env.setStateOk = true → env.shutdownOk = true →
      power p env = (Resp.accepted,
        [Effect.setNodePowerState
          { IsUp := false, IsDown := true, Leader := request.Leader },
         Effect.shutdown])) ∧
    (env.setStateOk = false →
      power p env = (Resp.upstreamError,
        [Effect.setNodePowerState
          { IsUp := false, IsDown := true, Leader := request.Leader }]) ∧
      Effect.shutdown ∉ (power p env).2) := by
  constructor
  · intro hset hsh
    simp [power, h1, h2, h3, h4, h5, h6, h7, hset, hsh]
  · intro hset
    refine ⟨?_, ?_⟩ <;> simp [power, h1, h2, h3, h4, h5, h6, h7, hset]

/-- Witness for C3: the fully validated environment `okEnv3` produces the
down transaction with leader 2, then the shutdown, then 202. -/
theorem power_writes_ledger_before_shutdown_witness :
    power pEx okEnv3 = (Resp.accepted,
      [Effect.setNodePowerState { IsUp := false, IsDown := true, Leader := 2 },
       Effect.shutdown]) :=
  (power_writes_ledger_before_shutdown pEx okEnv3 downReqEx leaderNodeEx
    rfl rfl rfl rfl rfl rfl rfl).1 rfl rfl

/-- Claim C6 (amended): a request whose body target differs from "down" is
rejected as a bad request provided it reaches the target check: the node is
not a leader, the body decodes, and the authenticated twin id equals the
body's Leader field (the leader-id check precedes the target check). -/
theorem power_bad_target_after_leader_check (p : PowerServer)
    (env : PowerHandlerEnv) (request : PowerRequestBody)
    (h1 : env.isLeader = false) (h2 : env.decodeBody = Except.ok request)
    (h3 : env.twinID = request.Leader) (h4 : request.Target ≠ downTarget) :
    power p env = (Resp.badRequest, []) := by
  simp [power, h1, h2, h3, h4]

/-- Witness for C6: with the twin id corrected to match the body, the "up"
target is rejected as a bad request. -/
theorem power_bad_target_after_leader_check_witness :
    power pEx { cexEnv6 with twinID := 2 } = (Resp.badRequest, []) :=
  power_bad_target_after_leader_check pEx _ upReqEx rfl rfl rfl (by decide)

/-- Counterexample to C6 as stated: a request whose body target is "up" but
whose authenticated twin (1) mismatches the body leader (2) is rejected as
unauthorized, not as a bad request. -/
theorem power_unauthorized_despite_bad_target :
    cexEnv6.decodeBody = Except.ok upReqEx ∧
    upReqEx.Target ≠ downTarget ∧
    power pEx cexEnv6 = (Resp.unAuthorized, []) ∧
    (power pEx cexEnv6).1 ≠ Resp.badRequest := by
  refine ⟨rfl, by decide, rfl, by decide⟩

/-- Claim C7: an authenticated request that reaches the ledger lookup and
whose claimed leader is recorded on a different farm is rejected as
unauthorized, even though the authenticated twin id equals the body's Leader
field. -/
theorem power_farm_mismatch_unauthorized (p : PowerServer)
    (env : PowerHandlerEnv) (request : PowerRequestBody) (leaderNode : SubNode)
    (h1 : env.isLeader = false) (h2 : env.decodeBody = Except.ok request)
    (h3 : env.twinID = request.Leader) (h4 : request.Target = downTarget)
    (h5 : env.subOk = true) (h6 : env.getLeader = Except.ok leaderNode)
    (h7 : leaderNode.FarmID ≠ p.farm) :
    power p env = (Resp.unAuthorized, []) := by
  simp [power, h1, h2, h3, h4, h5, h6, h7]

/-- Witness for C7: leader node on farm 8 against a server on farm 7. -/
theorem power_farm_mismatch_unauthorized_witness :
    power pEx { okEnv3 with getLeader := Except.ok foreignLeaderEx }
      = (Resp.unAuthorized, []) :=
  power_farm_mismatch_unauthorized pEx _ downReqEx foreignLeaderEx
    rfl rfl rfl rfl rfl rfl (by decide)

/-- Claim C8: `IsDirect` errors exactly when the address string does not
parse; a failed kernel route lookup yields false with a nil error; with a
successful lookup it yields true exactly when some returned route has no
gateway and the link index fixed at construction. -/
theorem IsDirect_spec (d : Direct) (env : RouteEnv) (ip : String) :
    (d.IsDirect env ip = Except.error () ↔ env.parseIP ip = none) ∧
    (∀ a, env.parseIP ip = some a → env.routeGet a = Except.error () →
      d.IsDirect env ip = Except.ok false) ∧
    (∀ a rs, env.parseIP ip = some a → env.routeGet a = Except.ok rs →
      (d.IsDirect env ip = Except.ok true ↔
        ∃ r ∈ rs, r.Gw = none ∧ r.LinkIndex = d.idx)) := by
  refine ⟨?_, ?_, ?_⟩
  · rcases hp : env.parseIP ip with - | a
    · simp [Direct.IsDirect, hp]
    · rcases hr : env.routeGet a with e | rs <;> simp [Direct.IsDirect, hp, hr]
  · intro a hp hr
    simp [Direct.IsDirect, hp, hr]
  · intro a rs hp hr
    simp [Direct.IsDirect, hp, hr, List.any_eq_true]

/-- Witness for C8: a gatewayless route on link 7 is judged direct, and an
unparseable string is an error. -/
theorem IsDirect_spec_witness :
    dEx.IsDirect renvDirect "10.0.0.5" = Except.ok true ∧
    dEx.IsDirect renvEx "not-an-ip" = Except.error () := by
  constructor
  · exact ((IsDirect_spec dEx renvDirect "10.0.0.5").2.2 [10, 0, 0, 5]
      [{ Gw := none, LinkIndex := 7 }] rfl rfl).mpr
      ⟨{ Gw := none, LinkIndex := 7 }, by simp, rfl, rfl⟩
  · exact (IsDirect_spec dEx renvEx "not-an-ip").1.mpr rfl

/-- Claim C9: `powerRequest` returns a nil error exactly when all four local
construction steps (encode, URL, request creation, signing) succeed; in that
case the transport outcome is irrelevant to the error and a received
response has its body closed. -/
theorem powerRequest_error_only_construction (env : HttpEnv) (ip : String)
    (req : PowerRequestBody) :
    ((powerRequest env ip req).1 = none ↔
      env.encodeOk = true ∧ env.buildUrlOk = true ∧
      env.newRequestOk = true ∧ env.signOk = true) ∧
    (env.encodeOk = true → env.buildUrlOk = true → env.newRequestOk = true →
      env.signOk = true →
      (powerRequest env ip req).1 = none ∧
      (env.doErr = false → (powerRequest env ip req).2 = true)) := by
  obtain ⟨e, b, n, s, de⟩ := env
  cases e <;> cases b <;> cases n <;> cases s <;> cases de <;> simp [powerRequest]

/-- Witness for C9: a fully constructed request with a working transport has
a nil error and a closed response body. -/
theorem powerRequest_error_only_construction_witness :
    (powerRequest httpEnvEx "10.0.0.5" downReqEx).1 = none ∧
    (powerRequest httpEnvEx "10.0.0.5" downReqEx).2 = true := by
  have h := (powerRequest_error_only_construction httpEnvEx "10.0.0.5" downReqEx).2
    rfl rfl rfl rfl
  exact ⟨h.1, h.2 rfl⟩

/-- Claim C10: the `event` handler fetches the node record before the
self-check: in this farm, a self-targeted event with a successful fetch takes
no action and returns no error, a failed fetch is returned as an error even
for a self-targeted event, and an event from a different farm is ignored
identically for every fetch outcome (no fetch is consulted). -/
theorem event_fetches_before_self_check (p : PowerServer) (d : Direct)
    (renv : RouteEnv) (wolOk : Bool) (ev : PowerChangeEvent) :
    (∀ node, ev.FarmID = p.farm → ev.NodeID = p.node →
      event p d renv wolOk (Except.ok node) ev = (Except.ok (), [])) ∧
    (∀ e, ev.FarmID = p.farm →
      event p d renv wolOk (Except.error e) ev = (Except.error e, [])) ∧
    (ev.FarmID ≠ p.farm → ∀ g, event p d renv wolOk g ev = (Except.ok (), [])) := by
  refine ⟨?_, ?_, ?_⟩
  · intro node hf hn
    simp [event, hf, hn]
  · intro e hf
    simp [event, hf]
  · intro hf g
    simp [event, hf]

/-- Witness for C10: a self-targeted event (farm 7, node 1) whose record
fetch fails is returned as an error. -/
theorem event_fetches_before_self_check_witness :
    event pEx dEx renvEx true (Except.error ())
        { FarmID := 7, NodeID := 1, Target := { IsUp := false, IsDown := true } }
      = (Except.error (), []) :=
  (event_fetches_before_self_check pEx dEx renvEx true
    { FarmID := 7, NodeID := 1, Target := { IsUp := false, IsDown := true } }).2.1 () rfl
